import Mathlib

/-!
Shallow embedding of `scripts/validate_system_requirements.py`.

The hardware probes (`/proc` reads, `nvidia-smi`, `statvfs`, ...) are
OS-specific collaborator calls; what is embedded here is the algorithmic
core that the spec describes: the threshold evaluation producing the
boolean flags, the quantization advisor, the report aggregation in
`SystemValidator.validate`, the exit-code selection in `main`, the JSON
shape produced by `save_report` (`asdict` + `json.dump`), and the file
write discipline of `save_report`.

Gigabyte quantities are Python floats in the source; they are modelled as
exact rationals (ℚ). Core/thread counts are Python ints, modelled as ℤ.
The textual rendering of a number inside a message string is abstracted by
Lean's `ToString` instances (the digits of a number never influence any
decision in the source).
-/

namespace SysReq

/-- CPU information container (dataclass `CPUInfo`). -/
structure CPUInfo where
  model : String
  cores : Int
  threads : Int
  architecture : String
  meets_minimum : Bool
  meets_recommended : Bool
  deriving Repr, DecidableEq

/-- Memory information container (dataclass `MemoryInfo`). -/
structure MemoryInfo where
  total_gb : ℚ
  available_gb : ℚ
  meets_minimum : Bool
  meets_recommended : Bool
  deriving Repr, DecidableEq

/-- GPU information container (dataclass `GPUInfo`). -/
structure GPUInfo where
  name : String
  vram_gb : ℚ
  cuda_version : String
  driver_version : String
  compute_capability : String
  is_available : Bool
  recommended_quantization : String
  deriving Repr, DecidableEq

/-- Storage information container (dataclass `StorageInfo`). -/
structure StorageInfo where
  total_gb : ℚ
  available_gb : ℚ
  meets_minimum : Bool
  filesystem : String
  deriving Repr, DecidableEq

/-- Complete system validation report (dataclass `SystemReport`). -/
structure SystemReport where
  cpu : CPUInfo
  memory : MemoryInfo
  gpu : Option GPUInfo
  storage : StorageInfo
  overall_status : String
  recommendations : List String
  warnings : List String
  timestamp : String
  deriving Repr, DecidableEq

/-! Fixed requirement constants of `SystemValidator`. -/

def MIN_CPU_CORES : Int := 8
def RECOMMENDED_CPU_CORES : Int := 12
def MIN_RAM_GB : ℚ := 32
def RECOMMENDED_RAM_GB : ℚ := 40
def MIN_STORAGE_GB : ℚ := 50
def MIN_VRAM_GB : ℚ := 16
def RECOMMENDED_VRAM_GB : ℚ := 24
def OPTIMAL_VRAM_GB : ℚ := 32

/-- Round a rational to two decimal places, half to even, mirroring
Python's `round(x, 2)` on the exact value. -/
def round2 (q : ℚ) : ℚ :=
  let x := q * 100
  let f : Int := Int.floor x
  let r : ℚ := x - (f : ℚ)
  let n : Int :=
    if r < 1/2 then f
    else if 1/2 < r then f + 1
    else if f % 2 = 0 then f else f + 1
  (n : ℚ) / 100

/-- Threshold evaluation of `get_cpu_info` (lines 137-144): the flags are
computed from the probed core count by plain comparison against the
constants; `model`, `threads`, `architecture` come from the probe. -/
def mkCPUInfo (model : String) (cores threads : Int) (arch : String) : CPUInfo :=
  { model := model
    cores := cores
    threads := threads
    architecture := arch
    meets_minimum := decide (MIN_CPU_CORES ≤ cores)
    meets_recommended := decide (RECOMMENDED_CPU_CORES ≤ cores) }

/-- Threshold evaluation of `get_memory_info` (lines 186-191): flags from
the raw total capacity, stored capacities rounded to two decimals. -/
def mkMemoryInfo (total_gb available_gb : ℚ) : MemoryInfo :=
  { total_gb := round2 total_gb
    available_gb := round2 available_gb
    meets_minimum := decide (MIN_RAM_GB ≤ total_gb)
    meets_recommended := decide (RECOMMENDED_RAM_GB ≤ total_gb) }

/-- Quantization advisor of `get_gpu_info` (lines 242-250): descending
threshold chain over the VRAM capacity. -/
def recommendedQuant (vram_gb : ℚ) : String :=
  if OPTIMAL_VRAM_GB ≤ vram_gb then "Q6_K or Q8_0 (full GPU offload)"
  else if RECOMMENDED_VRAM_GB ≤ vram_gb then "Q5_K_M (full GPU offload)"
  else if MIN_VRAM_GB ≤ vram_gb then "Q4_K_M (partial GPU offload)"
  else "Q4_K_M (CPU-heavy, limited GPU)"

/-- Construction of the GPU fact in `get_gpu_info` (lines 216-260): VRAM
is reported in MB and converted to GB rounded to two decimals; the
quantization recommendation is derived from that converted value. -/
def mkGPUInfo (name : String) (vram_mb : ℚ)
    (cuda driver compute : String) : GPUInfo :=
  let vram_gb := round2 (vram_mb / 1024)
  { name := name
    vram_gb := vram_gb
    cuda_version := cuda
    driver_version := driver
    compute_capability := compute
    is_available := true
    recommended_quantization := recommendedQuant vram_gb }

/-- Threshold evaluation of `get_storage_info` (lines 301-306): the single
flag is computed from the raw available capacity. -/
def mkStorageInfo (total_gb available_gb : ℚ) (filesystem : String) : StorageInfo :=
  { total_gb := round2 total_gb
    available_gb := round2 available_gb
    meets_minimum := decide (MIN_STORAGE_GB ≤ available_gb)
    filesystem := filesystem }

/-! Message strings appended by `SystemValidator.validate` (lines 326-357).
Each message depends only on the fact of its own resource. -/

def cpuMinWarning (cpu : CPUInfo) : String :=
  "CPU has only " ++ toString cpu.cores ++ " cores (minimum: "
    ++ toString MIN_CPU_CORES ++ ")"

def cpuMinRecommendation : String :=
  "Upgrade to a CPU with at least 8 cores for acceptable performance"

def cpuRecRecommendation (cpu : CPUInfo) : String :=
  "CPU has " ++ toString cpu.cores
    ++ " cores. 12+ cores recommended for optimal performance"

def memoryMinWarning (memory : MemoryInfo) : String :=
  "RAM is " ++ toString memory.total_gb ++ "GB (minimum: "
    ++ toString MIN_RAM_GB ++ "GB)"

def memoryMinRecommendation : String :=
  "CRITICAL: Upgrade RAM to at least 32GB to run 70B model"

def memoryRecRecommendation (memory : MemoryInfo) : String :=
  "RAM is " ++ toString memory.total_gb
    ++ "GB. 40GB+ recommended for Q5_K_M or higher"

def gpuAbsentWarning : String :=
  "No NVIDIA GPU detected - will use CPU-only inference (very slow)"

def gpuAbsentRecommendation : String :=
  "Add NVIDIA GPU with 24GB+ VRAM for 10-20x speedup"

def gpuLowVramWarning (g : GPUInfo) : String :=
  "GPU VRAM is " ++ toString g.vram_gb ++ "GB (recommended: "
    ++ toString RECOMMENDED_VRAM_GB ++ "GB+)"

def gpuLowVramRecommendation : String :=
  "GPU will be underutilized. Consider hybrid CPU/GPU inference"

def gpuOptimalRecommendation (g : GPUInfo) : String :=
  "Excellent! " ++ toString g.vram_gb
    ++ "GB VRAM enables Q6_K or Q8_0 quantization"

def storageMinWarning (storage : StorageInfo) : String :=
  "Only " ++ toString storage.available_gb ++ "GB available (minimum: "
    ++ toString MIN_STORAGE_GB ++ "GB)"

def storageMinRecommendation : String :=
  "Free up disk space or use a larger drive"

/-- Report aggregation of `SystemValidator.validate` (lines 317-382), given
the four probed facts and the timestamp. Warnings and recommendations
accumulate by appending resource by resource in source order
(CPU, Memory, GPU, Storage), mirroring the sequential `append` calls. -/
def validate (cpu : CPUInfo) (memory : MemoryInfo) (gpu : Option GPUInfo)
    (storage : StorageInfo) (timestamp : String) : SystemReport :=
  let ws0 : List String := []
  let rs0 : List String := []
  -- Evaluate CPU
  let ws1 := if !cpu.meets_minimum then ws0 ++ [cpuMinWarning cpu] else ws0
  let rs1 :=
    if !cpu.meets_minimum then rs0 ++ [cpuMinRecommendation]
    else if !cpu.meets_recommended then rs0 ++ [cpuRecRecommendation cpu]
    else rs0
  -- Evaluate Memory
  let ws2 := if !memory.meets_minimum then ws1 ++ [memoryMinWarning memory] else ws1
  let rs2 :=
    if !memory.meets_minimum then rs1 ++ [memoryMinRecommendation]
    else if !memory.meets_recommended then rs1 ++ [memoryRecRecommendation memory]
    else rs1
  -- Evaluate GPU
  let ws3 :=
    match gpu with
    | none => ws2 ++ [gpuAbsentWarning]
    | some g => if g.vram_gb < MIN_VRAM_GB then ws2 ++ [gpuLowVramWarning g] else ws2
  let rs3 :=
    match gpu with
    | none => rs2 ++ [gpuAbsentRecommendation]
    | some g =>
        if g.vram_gb < MIN_VRAM_GB then rs2 ++ [gpuLowVramRecommendation]
        else if OPTIMAL_VRAM_GB ≤ g.vram_gb then rs2 ++ [gpuOptimalRecommendation g]
        else rs2
  -- Evaluate Storage
  let ws4 := if !storage.meets_minimum then ws3 ++ [storageMinWarning storage] else ws3
  let rs4 := if !storage.meets_minimum then rs3 ++ [storageMinRecommendation] else rs3
  -- Determine overall status
  let critical_failures : List Bool :=
    [!memory.meets_minimum, !storage.meets_minimum, !cpu.meets_minimum]
  let overall_status :=
    if critical_failures.any (fun b => b) then "FAILED"
    else if !ws4.isEmpty then "PASSED_WITH_WARNINGS"
    else "PASSED"
  { cpu := cpu
    memory := memory
    gpu := gpu
    storage := storage
    overall_status := overall_status
    recommendations := rs4
    warnings := ws4
    timestamp := timestamp }

/-- Exit-code selection of `main` (lines 499-505). -/
def mainExitCode (report : SystemReport) : Nat :=
  if report.overall_status = "FAILED" then 1
  else if report.overall_status = "PASSED_WITH_WARNINGS" then 0
  else 0

/-! Per-resource views of the aggregation rules: the warning and
recommendation messages each resource contributes in `validate`,
each a function of that resource's fact alone. -/

def cpuWarnings (cpu : CPUInfo) : List String :=
  if !cpu.meets_minimum then [cpuMinWarning cpu] else []

def cpuRecommendations (cpu : CPUInfo) : List String :=
  if !cpu.meets_minimum then [cpuMinRecommendation]
  else if !cpu.meets_recommended then [cpuRecRecommendation cpu]
  else []

def memoryWarnings (memory : MemoryInfo) : List String :=
  if !memory.meets_minimum then [memoryMinWarning memory] else []

def memoryRecommendations (memory : MemoryInfo) : List String :=
  if !memory.meets_minimum then [memoryMinRecommendation]
  else if !memory.meets_recommended then [memoryRecRecommendation memory]
  else []

def gpuWarnings : Option GPUInfo → List String
  | none => [gpuAbsentWarning]
  | some g => if g.vram_gb < MIN_VRAM_GB then [gpuLowVramWarning g] else []

def gpuRecommendations : Option GPUInfo → List String
  | none => [gpuAbsentRecommendation]
  | some g =>
      if g.vram_gb < MIN_VRAM_GB then [gpuLowVramRecommendation]
      else if OPTIMAL_VRAM_GB ≤ g.vram_gb then [gpuOptimalRecommendation g]
      else []

def storageWarnings (storage : StorageInfo) : List String :=
  if !storage.meets_minimum then [storageMinWarning storage] else []

def storageRecommendations (storage : StorageInfo) : List String :=
  if !storage.meets_minimum then [storageMinRecommendation] else []

/-- Precision rank of the four advisor strings: higher rank means higher
recommended precision (Q6/Q8 full offload > Q5 full offload > Q4 with
partial offload > Q4 CPU-heavy). -/
def quantRank (s : String) : Nat :=
  if s = "Q6_K or Q8_0 (full GPU offload)" then 3
  else if s = "Q5_K_M (full GPU offload)" then 2
  else if s = "Q4_K_M (partial GPU offload)" then 1
  else 0

/-! JSON document model, mirroring the value tree that
`json.dump(asdict(report), f)` writes in `save_report` (lines 456-463):
objects keep the dataclass field order, Python ints and floats stay
distinct, an absent GPU serializes as `null`. -/

inductive Json where
  | null : Json
  | bool (b : Bool) : Json
  | int (n : Int) : Json
  | num (q : ℚ) : Json
  | str (s : String) : Json
  | arr (elements : List Json) : Json
  | obj (fields : List (String × Json)) : Json

def cpuToJson (c : CPUInfo) : Json :=
  Json.obj [("model", Json.str c.model), ("cores", Json.int c.cores),
    ("threads", Json.int c.threads), ("architecture", Json.str c.architecture),
    ("meets_minimum", Json.bool c.meets_minimum),
    ("meets_recommended", Json.bool c.meets_recommended)]

def memoryToJson (m : MemoryInfo) : Json :=
  Json.obj [("total_gb", Json.num m.total_gb), ("available_gb", Json.num m.available_gb),
    ("meets_minimum", Json.bool m.meets_minimum),
    ("meets_recommended", Json.bool m.meets_recommended)]

def gpuToJson (g : GPUInfo) : Json :=
  Json.obj [("name", Json.str g.name), ("vram_gb", Json.num g.vram_gb),
    ("cuda_version", Json.str g.cuda_version),
    ("driver_version", Json.str g.driver_version),
    ("compute_capability", Json.str g.compute_capability),
    ("is_available", Json.bool g.is_available),
    ("recommended_quantization", Json.str g.recommended_quantization)]

def storageToJson (s : StorageInfo) : Json :=
  Json.obj [("total_gb", Json.num s.total_gb), ("available_gb", Json.num s.available_gb),
    ("meets_minimum", Json.bool s.meets_minimum),
    ("filesystem", Json.str s.filesystem)]

/-- Structured serialization of a report, the value tree of the JSON
document `save_report` writes; `gpu` is `null` when the fact is absent. -/
def reportToJson (r : SystemReport) : Json :=
  Json.obj [("cpu", cpuToJson r.cpu), ("memory", memoryToJson r.memory),
    ("gpu", match r.gpu with | none => Json.null | some g => gpuToJson g),
    ("storage", storageToJson r.storage),
    ("overall_status", Json.str r.overall_status),
    ("recommendations", Json.arr (r.recommendations.map Json.str)),
    ("warnings", Json.arr (r.warnings.map Json.str)),
    ("timestamp", Json.str r.timestamp)]

/-- Modelled from the spec: the repository writes the report JSON but has
no reader for it; §6 of the spec fixes the field names and nesting
("Field names and nesting must exactly mirror the data model"). This and
the parsers below read the structured form back, field by field. -/
def parseCPUInfo : Json → Option CPUInfo
  | Json.obj [("model", Json.str model), ("cores", Json.int cores),
      ("threads", Json.int threads), ("architecture", Json.str arch),
      ("meets_minimum", Json.bool mn), ("meets_recommended", Json.bool mr)] =>
      some { model := model, cores := cores, threads := threads,
             architecture := arch, meets_minimum := mn, meets_recommended := mr }
  | _ => none

/-- Modelled from the spec: reader for the `memory` object (§6). -/
def parseMemoryInfo : Json → Option MemoryInfo
  | Json.obj [("total_gb", Json.num tg), ("available_gb", Json.num ag),
      ("meets_minimum", Json.bool mn), ("meets_recommended", Json.bool mr)] =>
      some { total_gb := tg, available_gb := ag,
             meets_minimum := mn, meets_recommended := mr }
  | _ => none

/-- Modelled from the spec: reader for a present `gpu` object (§6). -/
def parseGPUInfo : Json → Option GPUInfo
  | Json.obj [("name", Json.str name), ("vram_gb", Json.num vg),
      ("cuda_version", Json.str cv), ("driver_version", Json.str dv),
      ("compute_capability", Json.str cc), ("is_available", Json.bool ia),
      ("recommended_quantization", Json.str rq)] =>
      some { name := name, vram_gb := vg, cuda_version := cv,
             driver_version := dv, compute_capability := cc,
             is_available := ia, recommended_quantization := rq }
  | _ => none

/-- Modelled from the spec: the `gpu` field is an object or `null` (§6). -/
def parseOptGPUInfo : Json → Option (Option GPUInfo)
  | Json.null => some none
  | j => (parseGPUInfo j).map some

/-- Modelled from the spec: reader for the `storage` object (§6). -/
def parseStorageInfo : Json → Option StorageInfo
  | Json.obj [("total_gb", Json.num tg), ("available_gb", Json.num ag),
      ("meets_minimum", Json.bool mn), ("filesystem", Json.str fs)] =>
      some { total_gb := tg, available_gb := ag,
             meets_minimum := mn, filesystem := fs }
  | _ => none

/-- Modelled from the spec: reader for an array of strings (§6,
`recommendations` and `warnings` are arrays of strings). -/
def parseStringList : List Json → Option (List String)
  | [] => some []
  | Json.str s :: rest => (parseStringList rest).map (fun l => s :: l)
  | _ => none

/-- Modelled from the spec: reader for the whole report document (§6). -/
def parseReport : Json → Option SystemReport
  | Json.obj [("cpu", jc), ("memory", jm), ("gpu", jg), ("storage", js),
      ("overall_status", Json.str st), ("recommendations", Json.arr jrs),
      ("warnings", Json.arr jws), ("timestamp", Json.str ts)] =>
      (parseCPUInfo jc).bind fun cpu =>
      (parseMemoryInfo jm).bind fun memory =>
      (parseOptGPUInfo jg).bind fun gpu =>
      (parseStorageInfo js).bind fun storage =>
      (parseStringList jrs).bind fun recs =>
      (parseStringList jws).map fun ws =>
        { cpu := cpu, memory := memory, gpu := gpu, storage := storage,
          overall_status := st, recommendations := recs, warnings := ws,
          timestamp := ts }
  | _ => none

/-! File-write discipline of `save_report` (lines 456-463): the output
path is opened with mode `'w'`, which truncates in place, and `json.dump`
then streams the document into the open handle. A write failure
propagates out of `save_report` (which installs no handler, nor does
`main`), leaving on disk whatever the operations before the failure
produced. -/

inductive FileOp where
  | truncate : FileOp
  | write (chunk : String) : FileOp

/-- Contents of the output path after running a sequence of file
operations against its previous contents. -/
def runOps (contents : String) : List FileOp → String
  | [] => contents
  | FileOp.truncate :: rest => runOps "" rest
  | FileOp.write chunk :: rest => runOps (contents ++ chunk) rest

/-- The operations `save_report` performs on the output path: truncate on
open, then write the serialized document. -/
def saveReportOps (doc : String) : List FileOp :=
  [FileOp.truncate, FileOp.write doc]

/-- Contents of the output path when the run fails after the first `k`
operations (the propagated write error aborts the rest). -/
def crashAt (prev : String) (ops : List FileOp) (k : Nat) : String :=
  runOps prev (ops.take k)

/-! Helper lemmas shared by the claim theorems. -/

/-- The warning list built by `validate` is the concatenation of the four
per-resource warning lists, in source order. -/
theorem validate_warnings_eq (c : CPUInfo) (m : MemoryInfo) (g : Option GPUInfo)
    (s : StorageInfo) (t : String) :
    (validate c m g s t).warnings =
      cpuWarnings c ++ memoryWarnings m ++ gpuWarnings g ++ storageWarnings s := by
  unfold validate cpuWarnings memoryWarnings gpuWarnings storageWarnings
  rcases g with _ | g <;>
    cases c.meets_minimum <;> cases m.meets_minimum <;> cases s.meets_minimum <;>
    simp <;> split_ifs <;> simp

/-- The recommendation list built by `validate` is the concatenation of
the four per-resource recommendation lists, in source order. -/
theorem validate_recommendations_eq (c : CPUInfo) (m : MemoryInfo) (g : Option GPUInfo)
    (s : StorageInfo) (t : String) :
    (validate c m g s t).recommendations =
      cpuRecommendations c ++ memoryRecommendations m ++ gpuRecommendations g
        ++ storageRecommendations s := by
  unfold validate cpuRecommendations memoryRecommendations gpuRecommendations
    storageRecommendations
  rcases g with _ | g <;>
    cases c.meets_minimum <;> cases c.meets_recommended <;>
    cases m.meets_minimum <;> cases m.meets_recommended <;> cases s.meets_minimum <;>
    simp <;> split_ifs <;> simp

/-- The overall status computed by `validate`, as a function of the three
minimum flags and the assembled warning list. -/
theorem validate_overall_status_eq (c : CPUInfo) (m : MemoryInfo) (g : Option GPUInfo)
    (s : StorageInfo) (t : String) :
    (validate c m g s t).overall_status =
      if (!m.meets_minimum || !s.meets_minimum || !c.meets_minimum) then "FAILED"
      else if !(validate c m g s t).warnings.isEmpty then "PASSED_WITH_WARNINGS"
      else "PASSED" := by
  unfold validate
  cases c.meets_minimum <;> cases m.meets_minimum <;> cases s.meets_minimum <;> simp

/-- C1: for every report produced by `validate`, `overall_status` is
"FAILED" iff at least one of CPU, memory, storage fails its minimum flag
(the GPU fact never makes the status FAILED); otherwise the status is
"PASSED_WITH_WARNINGS" iff the warning list is non-empty, and "PASSED"
when it is empty. -/
theorem overall_status_spec (c : CPUInfo) (m : MemoryInfo) (g : Option GPUInfo)
    (s : StorageInfo) (t : String) :
    ((validate c m g s t).overall_status = "FAILED" ↔
      (c.meets_minimum = false ∨ m.meets_minimum = false ∨ s.meets_minimum = false)) ∧
    ((c.meets_minimum = true ∧ m.meets_minimum = true ∧ s.meets_minimum = true) →
      (((validate c m g s t).overall_status = "PASSED_WITH_WARNINGS" ↔
          (validate c m g s t).warnings ≠ []) ∧
        ((validate c m g s t).warnings = [] →
          (validate c m g s t).overall_status = "PASSED"))) := by
  have hst := validate_overall_status_eq c m g s t
  constructor
  · rw [hst]
    cases c.meets_minimum <;> cases m.meets_minimum <;> cases s.meets_minimum <;>
      simp
    split_ifs <;> simp
  · rintro ⟨hc, hm, hs2⟩
    rw [hst, hc, hm, hs2]
    simp

/-- Witness for C1 at the concrete run of spec §8: 8-core CPU, 32 GB RAM,
no GPU, ample storage — all minimums met, GPU absent, status
PASSED_WITH_WARNINGS. -/
theorem overall_status_spec_witness :
    (validate ⟨"Test CPU", 8, 16, "x86_64", true, false⟩ ⟨32, 28, true, false⟩ none
      ⟨500, 200, true, "ext4"⟩ "2025-01-01T00:00:00").overall_status =
      "PASSED_WITH_WARNINGS" := by
  have h := (overall_status_spec ⟨"Test CPU", 8, 16, "x86_64", true, false⟩
    ⟨32, 28, true, false⟩ none ⟨500, 200, true, "ext4"⟩ "2025-01-01T00:00:00").2
    ⟨rfl, rfl, rfl⟩
  exact h.1.mpr (by decide)

/-- C2: the CPU flags are exactly `cores ≥ 8` and `cores ≥ 12`, and the
memory flags exactly `total ≥ 32` and `total ≥ 40`, by plain numeric
comparison. -/
theorem threshold_flags_spec (model arch : String) (cores threads : Int) (r a : ℚ) :
    ((mkCPUInfo model cores threads arch).meets_minimum = decide (8 ≤ cores)) ∧
    ((mkCPUInfo model cores threads arch).meets_recommended = decide (12 ≤ cores)) ∧
    ((mkMemoryInfo r a).meets_minimum = decide (32 ≤ r)) ∧
    ((mkMemoryInfo r a).meets_recommended = decide (40 ≤ r)) :=
  ⟨rfl, rfl, rfl, rfl⟩

/-- C5: the exit status chosen by `main` is non-zero iff the report's
overall status is "FAILED"; a PASSED_WITH_WARNINGS run exits zero. -/
theorem exit_code_spec (c : CPUInfo) (m : MemoryInfo) (g : Option GPUInfo)
    (s : StorageInfo) (t : String) :
    (mainExitCode (validate c m g s t) ≠ 0 ↔
      (validate c m g s t).overall_status = "FAILED") ∧
    ((validate c m g s t).overall_status = "PASSED_WITH_WARNINGS" →
      mainExitCode (validate c m g s t) = 0) := by
  unfold mainExitCode
  split_ifs with h1 h2 <;> simp_all

/-- Witness for C5: a concrete PASSED_WITH_WARNINGS run exits zero. -/
theorem exit_code_spec_witness :
    mainExitCode (validate ⟨"Test CPU", 8, 16, "x86_64", true, false⟩
      ⟨32, 28, true, false⟩ none ⟨500, 200, true, "ext4"⟩ "2025-01-01T00:00:00") = 0 :=
  (exit_code_spec ⟨"Test CPU", 8, 16, "x86_64", true, false⟩ ⟨32, 28, true, false⟩ none
    ⟨500, 200, true, "ext4"⟩ "2025-01-01T00:00:00").2 (by decide)

/-- C6: the warning and recommendation lists of `validate` are the
concatenation, in the fixed order CPU, Memory, GPU, Storage, of
per-resource lists, each a function of that resource's fact alone. -/
theorem message_order_spec (c : CPUInfo) (m : MemoryInfo) (g : Option GPUInfo)
    (s : StorageInfo) (t : String) :
    (validate c m g s t).warnings =
      cpuWarnings c ++ memoryWarnings m ++ gpuWarnings g ++ storageWarnings s ∧
    (validate c m g s t).recommendations =
      cpuRecommendations c ++ memoryRecommendations m ++ gpuRecommendations g
        ++ storageRecommendations s :=
  ⟨validate_warnings_eq c m g s t, validate_recommendations_eq c m g s t⟩

/-- C10: the memory fact's available capacity influences nothing — two
runs whose memory probes differ only in available capacity have the same
memory flags, warnings, recommendations, and overall status. -/
theorem memory_available_noninterference (c : CPUInfo) (g : Option GPUInfo)
    (s : StorageInfo) (t : String) (total a1 a2 : ℚ) :
    ((mkMemoryInfo total a1).meets_minimum = (mkMemoryInfo total a2).meets_minimum) ∧
    ((mkMemoryInfo total a1).meets_recommended =
      (mkMemoryInfo total a2).meets_recommended) ∧
    ((validate c (mkMemoryInfo total a1) g s t).warnings =
      (validate c (mkMemoryInfo total a2) g s t).warnings) ∧
    ((validate c (mkMemoryInfo total a1) g s t).recommendations =
      (validate c (mkMemoryInfo total a2) g s t).recommendations) ∧
    ((validate c (mkMemoryInfo total a1) g s t).overall_status =
      (validate c (mkMemoryInfo total a2) g s t).overall_status) :=
  ⟨rfl, rfl, rfl, rfl, rfl⟩

/-- The precision rank of the advisor's answer as a function of VRAM. -/
theorem quantRank_recommendedQuant (v : ℚ) :
    quantRank (recommendedQuant v) =
      if OPTIMAL_VRAM_GB ≤ v then 3
      else if RECOMMENDED_VRAM_GB ≤ v then 2
      else if MIN_VRAM_GB ≤ v then 1
      else 0 := by
  unfold recommendedQuant quantRank
  split_ifs <;> simp_all

/-- C3: the quantization advisor returns exactly one of four fixed
strings, chosen by descending thresholds with exact boundaries at
16/24/32 GB, and its recommended precision is monotonically
non-decreasing in the VRAM capacity. -/
theorem quant_advisor_spec (v : ℚ) :
    (recommendedQuant v = "Q6_K or Q8_0 (full GPU offload)" ↔ 32 ≤ v) ∧
    (recommendedQuant v = "Q5_K_M (full GPU offload)" ↔ (24 ≤ v ∧ v < 32)) ∧
    (recommendedQuant v = "Q4_K_M (partial GPU offload)" ↔ (16 ≤ v ∧ v < 24)) ∧
    (recommendedQuant v = "Q4_K_M (CPU-heavy, limited GPU)" ↔ v < 16) ∧
    (∀ w : ℚ, v ≤ w →
      quantRank (recommendedQuant v) ≤ quantRank (recommendedQuant w)) := by
  refine ⟨?_, ?_, ?_, ?_, ?_⟩
  · unfold recommendedQuant OPTIMAL_VRAM_GB RECOMMENDED_VRAM_GB MIN_VRAM_GB
    split_ifs <;> simp_all
  · unfold recommendedQuant OPTIMAL_VRAM_GB RECOMMENDED_VRAM_GB MIN_VRAM_GB
    split_ifs <;> simp_all
  · unfold recommendedQuant OPTIMAL_VRAM_GB RECOMMENDED_VRAM_GB MIN_VRAM_GB
    split_ifs <;> simp_all
    all_goals first | linarith | (intro h; linarith)
  · unfold recommendedQuant OPTIMAL_VRAM_GB RECOMMENDED_VRAM_GB MIN_VRAM_GB
    split_ifs <;> simp_all
    all_goals linarith
  · intro w hvw
    rw [quantRank_recommendedQuant, quantRank_recommendedQuant]
    unfold OPTIMAL_VRAM_GB RECOMMENDED_VRAM_GB MIN_VRAM_GB
    split_ifs <;> first | decide | linarith

/-- Witness for C3: 24 GB of VRAM gets the mid option, and the rank at
8 GB is at most the rank at 24 GB. -/
theorem quant_advisor_spec_witness :
    recommendedQuant 24 = "Q5_K_M (full GPU offload)" ∧
    quantRank (recommendedQuant 8) ≤ quantRank (recommendedQuant 24) :=
  ⟨(quant_advisor_spec 24).2.1.mpr (by decide),
   (quant_advisor_spec 8).2.2.2.2 24 (by decide)⟩

/-- C4: when CPU, memory and storage all meet their minimum flags and the
GPU fact is absent, `validate` reports PASSED_WITH_WARNINGS, warns about
CPU-only inference, and recommends adding a GPU. -/
theorem gpu_absent_spec (c : CPUInfo) (m : MemoryInfo) (s : StorageInfo) (t : String)
    (hc : c.meets_minimum = true) (hm : m.meets_minimum = true)
    (hs2 : s.meets_minimum = true) :
    (validate c m none s t).overall_status = "PASSED_WITH_WARNINGS" ∧
    gpuAbsentWarning ∈ (validate c m none s t).warnings ∧
    gpuAbsentRecommendation ∈ (validate c m none s t).recommendations := by
  have hw := validate_warnings_eq c m none s t
  have hr := validate_recommendations_eq c m none s t
  have hst := validate_overall_status_eq c m none s t
  refine ⟨?_, ?_, ?_⟩
  · rw [hst, hc, hm, hs2, hw]
    simp [cpuWarnings, memoryWarnings, gpuWarnings, storageWarnings, hc, hm, hs2]
  · rw [hw]
    simp [gpuWarnings]
  · rw [hr]
    simp [gpuRecommendations]

/-- Witness for C4 at the concrete run of spec §8 (8 cores, 32 GB RAM,
no GPU, 200 GB free). -/
theorem gpu_absent_spec_witness :
    (validate ⟨"AMD Ryzen 7 7700X", 8, 16, "x86_64", true, false⟩ ⟨32, 28, true, false⟩
        none ⟨500, 200, true, "ext4"⟩ "2025-01-01T00:00:00").overall_status =
      "PASSED_WITH_WARNINGS" ∧
    gpuAbsentWarning ∈ (validate ⟨"AMD Ryzen 7 7700X", 8, 16, "x86_64", true, false⟩
        ⟨32, 28, true, false⟩ none ⟨500, 200, true, "ext4"⟩ "2025-01-01T00:00:00").warnings ∧
    gpuAbsentRecommendation ∈ (validate ⟨"AMD Ryzen 7 7700X", 8, 16, "x86_64", true, false⟩
        ⟨32, 28, true, false⟩ none ⟨500, 200, true, "ext4"⟩
        "2025-01-01T00:00:00").recommendations :=
  gpu_absent_spec ⟨"AMD Ryzen 7 7700X", 8, 16, "x86_64", true, false⟩
    ⟨32, 28, true, false⟩ ⟨500, 200, true, "ext4"⟩ "2025-01-01T00:00:00" rfl rfl rfl

/-- C9: a GPU fact with VRAM at or above 16 GB and below 32 GB makes
`validate` emit no GPU warning and no GPU recommendation at all; GPU
messages exist only for the absent, below-16 and at-or-above-32 cases. -/
theorem gpu_midrange_silent (g : GPUInfo) (h1 : (16:ℚ) ≤ g.vram_gb)
    (h2 : g.vram_gb < 32) :
    gpuWarnings (some g) = [] ∧ gpuRecommendations (some g) = [] ∧
    (∀ (c : CPUInfo) (m : MemoryInfo) (s : StorageInfo) (t : String),
      (validate c m (some g) s t).warnings =
        cpuWarnings c ++ memoryWarnings m ++ storageWarnings s ∧
      (validate c m (some g) s t).recommendations =
        cpuRecommendations c ++ memoryRecommendations m ++ storageRecommendations s) ∧
    (∀ g' : GPUInfo,
      (gpuWarnings (some g') ≠ [] ↔ g'.vram_gb < 16) ∧
      (gpuRecommendations (some g') ≠ [] ↔
        (g'.vram_gb < 16 ∨ 32 ≤ g'.vram_gb))) := by
  have hnl : ¬(g.vram_gb < MIN_VRAM_GB) := by unfold MIN_VRAM_GB; linarith
  have hno : ¬(OPTIMAL_VRAM_GB ≤ g.vram_gb) := by unfold OPTIMAL_VRAM_GB; linarith
  have hgw : gpuWarnings (some g) = [] := by simp [gpuWarnings, hnl]
  have hgr : gpuRecommendations (some g) = [] := by simp [gpuRecommendations, hnl, hno]
  refine ⟨hgw, hgr, ?_, ?_⟩
  · intro c m s t
    rw [validate_warnings_eq, validate_recommendations_eq, hgw, hgr]
    simp
  · intro g'
    simp only [gpuWarnings, gpuRecommendations, MIN_VRAM_GB, OPTIMAL_VRAM_GB]
    split_ifs <;> simp_all

/-- Witness for C9 at a 24 GB GPU fact (the tests' RTX 4090 case). -/
theorem gpu_midrange_silent_witness :
    gpuWarnings (some ⟨"NVIDIA RTX 4090", 24, "12.3", "550.35", "8.9", true,
      "Q5_K_M (full GPU offload)"⟩) = [] ∧
    gpuRecommendations (some ⟨"NVIDIA RTX 4090", 24, "12.3", "550.35", "8.9", true,
      "Q5_K_M (full GPU offload)"⟩) = [] :=
  ⟨(gpu_midrange_silent ⟨"NVIDIA RTX 4090", 24, "12.3", "550.35", "8.9", true,
      "Q5_K_M (full GPU offload)"⟩ (by decide) (by decide)).1,
   (gpu_midrange_silent ⟨"NVIDIA RTX 4090", 24, "12.3", "550.35", "8.9", true,
      "Q5_K_M (full GPU offload)"⟩ (by decide) (by decide)).2.1⟩

/-- Parsing a serialized array of strings gives back the list. -/
theorem parseStringList_map (l : List String) :
    parseStringList (l.map Json.str) = some l := by
  induction l with
  | nil => rfl
  | cons a l ih => simp [parseStringList, ih]

set_option maxHeartbeats 1000000 in
/-- C7: serializing a report to the structured JSON form and parsing it
back reproduces every field exactly, including a `null` GPU. -/
theorem report_roundtrip (r : SystemReport) :
    parseReport (reportToJson r) = some r := by
  rcases r with ⟨cpu, memory, gpu, storage, st, recs, ws, ts⟩
  have hr := parseStringList_map recs
  have hw := parseStringList_map ws
  rcases gpu with _ | g <;>
    simp only [reportToJson, parseReport, parseCPUInfo, parseMemoryInfo,
      parseOptGPUInfo, parseGPUInfo, parseStorageInfo, cpuToJson, memoryToJson,
      gpuToJson, storageToJson, hr, hw] <;> rfl

/-- C8 counterexample: the write in `save_report` is not atomic. With
previous contents "previous report" and document "fresh document", a
failure right after the truncating open leaves an empty file: neither the
previous contents nor the complete document. -/
theorem save_report_not_atomic :
    crashAt "previous report" (saveReportOps "fresh document") 1 ≠ "previous report" ∧
    crashAt "previous report" (saveReportOps "fresh document") 1 ≠ "fresh document" := by
  decide

/-- C8 (amended): a failed write propagates out of `save_report` (no
handler exists), and a completed run leaves exactly the document on disk;
but the write is not atomic — a run that fails midway leaves either the
previous contents (failure before the open) or some prefix of the
document, possibly empty, because the open truncates in place. -/
theorem save_report_write_discipline (prev doc : String) :
    runOps prev (saveReportOps doc) = doc ∧
    (∀ k : Nat, crashAt prev (saveReportOps doc) k = prev ∨
      ∃ rest : String, crashAt prev (saveReportOps doc) k ++ rest = doc) := by
  constructor
  · simp [saveReportOps, runOps]
  · intro k
    match k with
    | 0 => exact Or.inl rfl
    | 1 =>
        refine Or.inr ⟨doc, ?_⟩
        simp [crashAt, saveReportOps, runOps]
    | (n + 2) =>
        refine Or.inr ⟨"", ?_⟩
        simp [crashAt, saveReportOps, runOps]

end SysReq
